import Mathlib

/-!
Verification of `src/mininet/topology.py` (repository AtalGupta/SDN).

The script `createTopology` is a straight-line sequence of calls into the
Mininet library: it reads the controller address from the environment,
builds a network container, registers one remote controller, declares five
switches, five hosts and ten links with literal parameters, starts the
network, waits for the controller sessions, runs a reachability probe,
opens an interactive prompt and finally stops the network.

We embed the script shallowly as the list of observable library calls it
performs, parameterized by the process environment (a map from variable
names to optional string values).  A small-step execution semantics over a
program counter settles the temporal claims (blocking wait, unconditional
progression past the reachability probe).
-/

namespace SDNTopology

/-- One observable operation performed by `createTopology`, in the order the
script issues it.  Each constructor records the literal arguments of the
corresponding library call in `src/mininet/topology.py`. -/
inductive Event where
  | envRead (var : String) (defaultVal : String)
  | newNet (switchCls linkCls : String) (autoSetMacs : Bool)
  | addController (name cls ip : String) (port : Nat)
  | addSwitch (name cls protocols : String)
  | addHost (name ip mac : String)
  | addLink (ep1 ep2 cls : String) (bw : Nat) (delay : String)
  | start
  | waitConnected (timeout : Option Nat)
  | pingAll
  | cli
  | stop
deriving DecidableEq, Repr

/-- Embedding of line 33, `os.environ.get('ONOS_IP', '127.0.0.1')`. -/
def onos_ip (env : String → Option String) : String :=
  (env "ONOS_IP").getD "127.0.0.1"

/-- Shallow embedding of `createTopology` (src/mininet/topology.py, lines
29-123): the sequence of library calls the script performs, in source
order, as a function of the process environment.  `waitConnected none`
records that `net.waitConnected()` is called without a timeout argument
(the library default is no timeout). -/
def createTopology (env : String → Option String) : List Event :=
  [ .envRead "ONOS_IP" "127.0.0.1",
    .newNet "OVSKernelSwitch" "TCLink" true,
    .addController "c0" "RemoteController" (onos_ip env) 6653,
    .addSwitch "s1" "OVSKernelSwitch" "OpenFlow13",
    .addSwitch "s2" "OVSKernelSwitch" "OpenFlow13",
    .addSwitch "s3" "OVSKernelSwitch" "OpenFlow13",
    .addSwitch "s4" "OVSKernelSwitch" "OpenFlow13",
    .addSwitch "s5" "OVSKernelSwitch" "OpenFlow13",
    .addHost "h1" "10.0.0.1/24" "00:00:00:00:00:01",
    .addHost "h2" "10.0.0.2/24" "00:00:00:00:00:02",
    .addHost "h3" "10.0.0.3/24" "00:00:00:00:00:03",
    .addHost "h4" "10.0.0.4/24" "00:00:00:00:00:04",
    .addHost "h5" "10.0.0.5/24" "00:00:00:00:00:05",
    .addLink "h1" "s1" "TCLink" 100 "5ms",
    .addLink "h2" "s2" "TCLink" 100 "5ms",
    .addLink "h3" "s3" "TCLink" 100 "5ms",
    .addLink "h4" "s4" "TCLink" 100 "5ms",
    .addLink "h5" "s5" "TCLink" 100 "5ms",
    .addLink "s1" "s2" "TCLink" 100 "10ms",
    .addLink "s1" "s3" "TCLink" 100 "10ms",
    .addLink "s1" "s4" "TCLink" 100 "10ms",
    .addLink "s2" "s3" "TCLink" 100 "10ms",
    .addLink "s2" "s4" "TCLink" 100 "10ms",
    .addLink "s3" "s4" "TCLink" 100 "10ms",
    .addLink "s3" "s5" "TCLink" 100 "10ms",
    .start,
    .waitConnected none,
    .pingAll,
    .cli,
    .stop ]

/-- Endpoint pairs of the links created in a trace, in creation order. -/
def linksOf (t : List Event) : List (String × String) :=
  t.filterMap fun e =>
    match e with
    | .addLink a b _ _ _ => some (a, b)
    | _ => none

/-- Endpoint pairs together with bandwidth and delay of the created links. -/
def linkParams (t : List Event) : List ((String × String) × Nat × String) :=
  t.filterMap fun e =>
    match e with
    | .addLink a b _ bw d => some ((a, b), bw, d)
    | _ => none

/-- Name, IP and MAC of the hosts created in a trace, in creation order. -/
def hostsOf (t : List Event) : List (String × String × String) :=
  t.filterMap fun e =>
    match e with
    | .addHost n ip mac => some (n, ip, mac)
    | _ => none

/-- Name, class and protocol version of the created switches. -/
def switchesOf (t : List Event) : List (String × String × String) :=
  t.filterMap fun e =>
    match e with
    | .addSwitch n cls pr => some (n, cls, pr)
    | _ => none

/-- Name, IP and port of every controller registration in a trace. -/
def controllerRegs (t : List Event) : List (String × String × Nat) :=
  t.filterMap fun e =>
    match e with
    | .addController n _ ip p => some (n, ip, p)
    | _ => none

/-- The five host-to-switch endpoint pairs of the topology. -/
def hostSwitchPairs : List (String × String) :=
  [("h1", "s1"), ("h2", "s2"), ("h3", "s3"), ("h4", "s4"), ("h5", "s5")]

/-- The seven switch-to-switch endpoint pairs of the topology. -/
def switchSwitchPairs : List (String × String) :=
  [("s1", "s2"), ("s1", "s3"), ("s1", "s4"), ("s2", "s3"), ("s2", "s4"),
   ("s3", "s4"), ("s3", "s5")]

/-- C1 counterexample: the claim says exactly 10 links are created, but the
script creates 12 (5 host-switch links plus 7 switch-switch links, lines
72-90 of the source); at the concrete environment with no variables set
the number of created links is not 10. -/
theorem C1_ten_links_is_false :
    ¬ (linksOf (createTopology (fun _ => none))).length = 10 := by decide

/-- C1 (amended): the topology construction creates exactly 12 links, every
created link endpoint pair is one of the 5 host-switch pairs or the 7
listed switch-switch pairs, and no link with any other endpoint pair is
created (the created pairs are exactly that list). -/
theorem C1_links_exact (env : String → Option String) :
    linksOf (createTopology env) = hostSwitchPairs ++ switchSwitchPairs ∧
    (linksOf (createTopology env)).length = 12 ∧
    ∀ p ∈ linksOf (createTopology env), p ∈ hostSwitchPairs ++ switchSwitchPairs := by
  have h : linksOf (createTopology env) = hostSwitchPairs ++ switchSwitchPairs := rfl
  refine ⟨h, by rw [h]; decide, ?_⟩
  rw [h]; decide

/-- Witness for C1 at a concrete environment and a concrete link. -/
theorem C1_links_exact_witness :
    ("h1", "s1") ∈ hostSwitchPairs ++ switchSwitchPairs :=
  (C1_links_exact (fun _ => none)).2.2 ("h1", "s1") (by decide)

/-- C2: the controller address registered equals the value of `ONOS_IP`
when it is set (any string, passed through unvalidated) and `127.0.0.1`
when it is unset, and the registered port is 6653 in every run. -/
theorem C2_controller_address (env : String → Option String) (v : String) :
    (env "ONOS_IP" = some v →
      controllerRegs (createTopology env) = [("c0", v, 6653)]) ∧
    (env "ONOS_IP" = none →
      controllerRegs (createTopology env) = [("c0", "127.0.0.1", 6653)]) := by
  constructor
  · intro h
    show [("c0", onos_ip env, 6653)] = [("c0", v, 6653)]
    rw [onos_ip, h]
    rfl
  · intro h
    show [("c0", onos_ip env, 6653)] = [("c0", "127.0.0.1", 6653)]
    rw [onos_ip, h]
    rfl

/-- Witness for C2: a concrete environment setting `ONOS_IP` to
`192.168.1.50`, and a concrete run with the variable unset. -/
theorem C2_controller_address_witness :
    controllerRegs (createTopology (fun k => if k = "ONOS_IP" then some "192.168.1.50" else none))
      = [("c0", "192.168.1.50", 6653)] ∧
    controllerRegs (createTopology (fun _ => none)) = [("c0", "127.0.0.1", 6653)] :=
  ⟨(C2_controller_address (fun k => if k = "ONOS_IP" then some "192.168.1.50" else none)
      "192.168.1.50").1 (by simp),
   (C2_controller_address (fun _ => none) "").2 rfl⟩

/-- C5: every host-to-switch link is created with bandwidth 100 and delay
5ms, every switch-to-switch link with bandwidth 100 and delay 10ms, and no
link is created with any other bandwidth or delay value. -/
theorem C5_link_parameters (env : String → Option String) :
    ∀ l ∈ linkParams (createTopology env),
      (l.1 ∈ hostSwitchPairs → l.2 = (100, "5ms")) ∧
      (l.1 ∈ switchSwitchPairs → l.2 = (100, "10ms")) ∧
      (l.2 = (100, "5ms") ∨ l.2 = (100, "10ms")) := by
  have h : linkParams (createTopology env) =
      [(("h1", "s1"), 100, "5ms"), (("h2", "s2"), 100, "5ms"),
       (("h3", "s3"), 100, "5ms"), (("h4", "s4"), 100, "5ms"),
       (("h5", "s5"), 100, "5ms"), (("s1", "s2"), 100, "10ms"),
       (("s1", "s3"), 100, "10ms"), (("s1", "s4"), 100, "10ms"),
       (("s2", "s3"), 100, "10ms"), (("s2", "s4"), 100, "10ms"),
       (("s3", "s4"), 100, "10ms"), (("s3", "s5"), 100, "10ms")] := rfl
  rw [h]; decide

/-- Witness for C5 at a concrete environment and a concrete link. -/
theorem C5_link_parameters_witness :
    ((("s3", "s5"), 100, "10ms") : (String × String) × Nat × String).2
      = (100, "10ms") :=
  ((C5_link_parameters (fun _ => none) (("s3", "s5"), 100, "10ms")
      (by decide)).2.1) (by decide)

/-- C6: for every N in 1..5, host hN is assigned exactly one IP address,
namely 10.0.0.N/24, and exactly one MAC address, namely
00:00:00:00:00:0N. -/
theorem C6_host_addresses (env : String → Option String) (n : Nat)
    (hlo : 1 ≤ n) (hhi : n ≤ 5) :
    (hostsOf (createTopology env)).filter
        (fun x => x.1 == "h" ++ toString n)
      = [("h" ++ toString n, "10.0.0." ++ toString n ++ "/24",
          "00:00:00:00:00:0" ++ toString n)] := by
  have h : hostsOf (createTopology env) =
      [("h1", "10.0.0.1/24", "00:00:00:00:00:01"),
       ("h2", "10.0.0.2/24", "00:00:00:00:00:02"),
       ("h3", "10.0.0.3/24", "00:00:00:00:00:03"),
       ("h4", "10.0.0.4/24", "00:00:00:00:00:04"),
       ("h5", "10.0.0.5/24", "00:00:00:00:00:05")] := rfl
  rw [h]
  interval_cases n <;> decide

/-- Witness for C6 at a concrete environment and N = 3. -/
theorem C6_host_addresses_witness :
    (hostsOf (createTopology (fun _ => none))).filter
        (fun x => x.1 == "h" ++ toString 3)
      = [("h" ++ toString 3, "10.0.0." ++ toString 3 ++ "/24",
          "00:00:00:00:00:0" ++ toString 3)] :=
  C6_host_addresses (fun _ => none) 3 (by decide) (by decide)

/-- C7: exactly 5 switch nodes and exactly 5 host nodes are created, with
literal identities s1..s5 and h1..h5, and every switch requests the single
fixed protocol version OpenFlow 1.3. -/
theorem C7_nodes_exact (env : String → Option String) :
    switchesOf (createTopology env) =
      [("s1", "OVSKernelSwitch", "OpenFlow13"),
       ("s2", "OVSKernelSwitch", "OpenFlow13"),
       ("s3", "OVSKernelSwitch", "OpenFlow13"),
       ("s4", "OVSKernelSwitch", "OpenFlow13"),
       ("s5", "OVSKernelSwitch", "OpenFlow13")] ∧
    (hostsOf (createTopology env)).map (fun x => x.1)
      = ["h1", "h2", "h3", "h4", "h5"] ∧
    (switchesOf (createTopology env)).length = 5 ∧
    (hostsOf (createTopology env)).length = 5 :=
  ⟨rfl, rfl, rfl, rfl⟩

/-- Checker for the C8 invariant: walking the trace in order, every link
references two node names created by an earlier addSwitch or addHost event,
and no two links use the same unordered endpoint pair. -/
def linksWellFormed : List Event → List String → List (String × String) → Bool
  | [], _, _ => true
  | e :: rest, created, seen =>
    match e with
    | .addSwitch n _ _ => linksWellFormed rest (n :: created) seen
    | .addHost n _ _ => linksWellFormed rest (n :: created) seen
    | .addLink a b _ _ _ =>
        created.contains a && created.contains b &&
        !(seen.contains (a, b) || seen.contains (b, a)) &&
        linksWellFormed rest created ((a, b) :: seen)
    | _ => linksWellFormed rest created seen

/-- C8: at every link-creation step both endpoints were created earlier in
the sequence, and no two link-creation steps share the same unordered
endpoint pair. -/
theorem C8_links_well_formed (env : String → Option String) :
    linksWellFormed (createTopology env) [] [] = true ∧
    (linksOf (createTopology env)).Pairwise
      (fun p q => p ≠ q ∧ p ≠ (q.2, q.1)) := by
  refine ⟨rfl, ?_⟩
  have h : linksOf (createTopology env) = hostSwitchPairs ++ switchSwitchPairs := rfl
  rw [h]; decide

/-- Constructor kind of an event, used to state the order of operations
independently of the literal arguments. -/
inductive Kind where
  | envRead | newNet | addController | addSwitch | addHost | addLink
  | start | waitConnected | pingAll | cli | stop
deriving DecidableEq, Repr

/-- The kind of an event. -/
def kind : Event → Kind
  | .envRead _ _ => .envRead
  | .newNet _ _ _ => .newNet
  | .addController _ _ _ _ => .addController
  | .addSwitch _ _ _ => .addSwitch
  | .addHost _ _ _ => .addHost
  | .addLink _ _ _ _ _ => .addLink
  | .start => .start
  | .waitConnected _ => .waitConnected
  | .pingAll => .pingAll
  | .cli => .cli
  | .stop => .stop

/-- C9: the operations of the builder occur in exactly this order: read the
controller address from the environment, construct the network container,
register the controller endpoint, create all switches, create all hosts,
create all links, start the network, wait for controller sessions, run the
all-pairs reachability probe, open the interactive session, and stop the
network only after the interactive session (the final three events are
pingAll, cli, stop in that order). -/
theorem C9_operation_order (env : String → Option String) :
    (createTopology env).map kind =
      [.envRead, .newNet, .addController]
        ++ List.replicate 5 .addSwitch
        ++ List.replicate 5 .addHost
        ++ List.replicate 12 .addLink
        ++ [.start, .waitConnected, .pingAll, .cli, .stop] := rfl

/-- Erase the one environment-dependent field of a trace: the IP argument
of the controller registration. -/
def scrubCtlIp : Event → Event
  | .addController n cls _ p => .addController n cls "" p
  | e => e

/-- C10: the constructed topology is deterministic and independent of the
environment except for the controller address: for any two environments the
traces agree once the controller-registration IP field is erased, and in
particular the created switches, hosts and link parameters are identical. -/
theorem C10_env_noninterference (e1 e2 : String → Option String) :
    (createTopology e1).map scrubCtlIp = (createTopology e2).map scrubCtlIp ∧
    switchesOf (createTopology e1) = switchesOf (createTopology e2) ∧
    hostsOf (createTopology e1) = hostsOf (createTopology e2) ∧
    linkParams (createTopology e1) = linkParams (createTopology e2) :=
  ⟨rfl, rfl, rfl, rfl⟩

/-- Execution state of the script: the index of the next event to execute
and the recorded result of the last reachability probe (the script receives
this value from the library but never inspects it). -/
structure ScriptState where
  pc : Nat
  pingResult : Option Nat
deriving DecidableEq, Repr

/-- Program-counter transition of one execution step.  Modelled from the
spec for the one library call whose behaviour the script depends on:
`net.waitConnected()` with no timeout argument blocks until every switch
reports a controller session ("Block until every switch reports a session
with the controller - no timeout is specified"), so the wait event advances
only when `conn` holds; a wait with a timeout would eventually give up and
proceed, which we collapse into one step.  Every other event completes and
advances the counter by one; past the end of the trace the counter stays. -/
def pcStep (env : String → Option String) (conn : Bool) (pc : Nat) : Nat :=
  match (createTopology env)[pc]? with
  | some (.waitConnected timeout) =>
      if conn then pc + 1
      else
        match timeout with
        | none => pc
        | some _ => pc + 1
  | some _ => pc + 1
  | none => pc

/-- One execution step of the script: advance the program counter, and when
the current event is the reachability probe, record its result `ping`. -/
def step (env : String → Option String) (conn : Bool) (ping : Nat)
    (s : ScriptState) : ScriptState :=
  { pc := pcStep env conn s.pc,
    pingResult :=
      match (createTopology env)[s.pc]? with
      | some .pingAll => some ping
      | _ => s.pingResult }

/-- Execution of the script for `n` steps, with time-indexed oracles for
controller connectivity and for the reachability-probe result. -/
def run (env : String → Option String) (conn : Nat → Bool)
    (ping : Nat → Nat) : Nat → ScriptState
  | 0 => ⟨0, none⟩
  | n + 1 => step env (conn n) (ping n) (run env conn ping n)

theorem run_pc_succ (env : String → Option String) (conn : Nat → Bool)
    (ping : Nat → Nat) (n : Nat) :
    (run env conn ping (n + 1)).pc
      = pcStep env (conn n) (run env conn ping n).pc := rfl

theorem pcStep_lt_wait (env : String → Option String) (conn : Bool)
    (pc : Nat) (h : pc < 26) : pcStep env conn pc = pc + 1 := by
  interval_cases pc <;> rfl

theorem pcStep_wait_blocked (env : String → Option String) :
    pcStep env false 26 = 26 := rfl

/-- C3: the wait-for-controller step is invoked with no timeout; if no
switch ever reports a controller session, the run stays blocked at the wait
step (index 26) forever: after n steps the counter is exactly min n 26, so
it never crashes out of the step and never reaches the reachability probe
(index 27) or the interactive prompt (index 28). -/
theorem C3_wait_blocks_forever (env : String → Option String)
    (conn : Nat → Bool) (ping : Nat → Nat)
    (hconn : ∀ t, conn t = false) (n : Nat) :
    (createTopology env)[26]? = some (.waitConnected none) ∧
    (run env conn ping n).pc = min n 26 := by
  refine ⟨rfl, ?_⟩
  induction n with
  | zero => rfl
  | succ n ih =>
    rw [run_pc_succ, ih]
    rcases Nat.lt_or_ge n 26 with h | h
    · rw [Nat.min_eq_left (Nat.le_of_lt h), pcStep_lt_wait env _ n h]
      omega
    · rw [Nat.min_eq_right h, hconn n, pcStep_wait_blocked]
      omega

/-- Witness for C3: with a controller that never connects, after 40 steps
the run still sits at the wait step. -/
theorem C3_wait_blocks_forever_witness :
    (createTopology (fun _ => none))[26]? = some (.waitConnected none) ∧
    (run (fun _ => none) (fun _ => false) (fun _ => 0) 40).pc = min 40 26 :=
  C3_wait_blocks_forever (fun _ => none) (fun _ => false) (fun _ => 0)
    (fun _ => rfl) 40

/-- C4: the result of the all-pairs reachability probe is never inspected
and never escalated: the program counter after any number of steps is
identical for any two probe-result oracles, a run standing at the probe
(index 27) always advances to the interactive prompt (index 28) at the next
step whatever the probe returns, and the counter never decreases, so no
step of the script is ever retried. -/
theorem C4_ping_result_ignored (env : String → Option String)
    (conn : Nat → Bool) (p1 p2 : Nat → Nat) (n : Nat) :
    (run env conn p1 n).pc = (run env conn p2 n).pc ∧
    ((run env conn p1 n).pc = 27 → (run env conn p1 (n + 1)).pc = 28) ∧
    (run env conn p1 n).pc ≤ (run env conn p1 (n + 1)).pc := by
  have hpc : ∀ m, (run env conn p1 m).pc = (run env conn p2 m).pc := by
    intro m
    induction m with
    | zero => rfl
    | succ m ih => rw [run_pc_succ, run_pc_succ, ih]
  have hmono : ∀ (c : Bool) (pc : Nat), pc ≤ pcStep env c pc := by
    intro c pc
    unfold pcStep
    repeat' split
    all_goals omega
  refine ⟨hpc n, ?_, ?_⟩
  · intro h
    rw [run_pc_succ, h]
    rfl
  · rw [run_pc_succ]
    exact hmono (conn n) (run env conn p1 n).pc

theorem pcStep_conn_advances (env : String → Option String) (pc : Nat)
    (h : pc < 30) : pcStep env true pc = pc + 1 := by
  interval_cases pc <;> rfl

theorem run_pc_conn (env : String → Option String) (ping : Nat → Nat)
    (n : Nat) (h : n ≤ 30) :
    (run env (fun _ => true) ping n).pc = n := by
  induction n with
  | zero => rfl
  | succ n ih =>
    rw [run_pc_succ, ih (by omega), pcStep_conn_advances env n (by omega)]

/-- Witness for C4: with an always-connected controller the run reaches the
probe at step 27 and stands at the prompt one step later, for two different
probe-result oracles. -/
theorem C4_ping_result_ignored_witness :
    (run (fun _ => none) (fun _ => true) (fun _ => 7) 28).pc = 28 := by
  have h := C4_ping_result_ignored (fun _ => none) (fun _ => true)
    (fun _ => 7) (fun _ => 9) 27
  exact h.2.1 (run_pc_conn (fun _ => none) (fun _ => 7) 27 (by omega))

end SDNTopology
